import Mathlib

/-!
Shallow embedding of `src/shrpx_downstream.cc` (the per-stream Downstream
state core of the shrpx reverse proxy) and proofs about its operations.

Members of `Downstream` keep the names of the C++ methods.  Collaborators
that live outside `src/` (the backend transport adapter, the upstream
multiplexer, the http_parser library, constants from headers) are modelled
abstractly; each such definition carries a doc comment starting with
`Modelled from the spec:`.
-/

namespace shrpx

/-- Request/response state enumeration used by `Downstream`
(`Downstream::INITIAL`, `Downstream::HEADER_COMPLETE`,
`Downstream::MSG_COMPLETE` in the source). -/
inductive DownstreamState where
  | INITIAL
  | HEADER_COMPLETE
  | MSG_COMPLETE
  deriving DecidableEq, Repr

/-- Modelled from the spec: the backend transport adapter
(`DownstreamConnection`, `shrpx_downstream_connection.h` is not under
`src/`).  Its operations are abstracted by the status codes they would
return and by the length of its outbound queue. -/
structure DownstreamConnection where
  push_request_headers_result : Int
  push_upload_data_chunk_result : List Nat → Int
  end_upload_data_result : Int
  output_length : Nat

/-- Modelled from the spec: the client-facing multiplexer (`Upstream`,
`shrpx_upstream.h` is not under `src/`).  Only the status codes its
notifications return are relevant here. -/
structure Upstream where
  on_downstream_header_complete_result : Int
  on_downstream_body_result : List Nat → Int
  on_downstream_body_complete_result : Int

/-- Header list: ordered (name, value) string pairs, duplicates allowed
(`Headers` in the source). -/
def Headers := List (String × String)

/-- The per-stream state object of `shrpx_downstream.cc`.  Field names
follow the C++ members (without the trailing underscore). -/
structure Downstream where
  upstream : Upstream
  dconn : Option DownstreamConnection
  stream_id : Int
  priority : Int
  request_state : DownstreamState
  request_method : String
  request_path : String
  request_major : Nat
  request_minor : Nat
  chunked_request : Bool
  request_connection_close : Bool
  request_expect_100_continue : Bool
  request_header_key_prev : Bool
  request_headers : List (String × String)
  response_state : DownstreamState
  response_http_status : Nat
  response_major : Nat
  response_minor : Nat
  chunked_response : Bool
  response_connection_close : Bool
  response_header_key_prev : Bool
  response_headers : List (String × String)
  recv_window_size : Int

/-- The constructor `Downstream::Downstream(upstream, stream_id, priority)`
(lines 40-67 of the source): both states INITIAL, HTTP versions 1.1, all
flags false, status 0, window 0, no transport. -/
def Downstream.make (upstream : Upstream) (stream_id priority : Int) :
    Downstream where
  upstream := upstream
  dconn := none
  stream_id := stream_id
  priority := priority
  request_state := .INITIAL
  request_method := ""
  request_path := ""
  request_major := 1
  request_minor := 1
  chunked_request := false
  request_connection_close := false
  request_expect_100_continue := false
  request_header_key_prev := false
  request_headers := []
  response_state := .INITIAL
  response_http_status := 0
  response_major := 1
  response_minor := 1
  chunked_response := false
  response_connection_close := false
  response_header_key_prev := false
  response_headers := []
  recv_window_size := 0

/-- Embeds `Downstream::set_downstream_connection`: rebinds (or unbinds, on
`none`) the transport reference. -/
def Downstream.set_downstream_connection (d : Downstream)
    (dconn : Option DownstreamConnection) : Downstream :=
  { d with dconn := dconn }

/-- Modelled from the spec: `util::strieq` (from `util.h`, not under
`src/`), case-insensitive string equality. -/
def strieq (a b : String) : Bool :=
  a.toList.map Char.toLower == b.toList.map Char.toLower

/-- Modelled from the spec: `util::strifind` (from `util.h`, not under
`src/`), case-insensitive substring search of `needle` in `hay`. -/
def strifind (hay needle : String) : Bool :=
  (hay.toList.map Char.toLower).tails.any
    (fun t => (needle.toList.map Char.toLower).isPrefixOf t)

/-- Embeds `check_header_field` (lines 117-127): sets the result flag to true when
the item name equals `name` case-insensitively and its value contains
`value` case-insensitively; otherwise leaves the flag as it was. -/
def check_header_field (result : Bool) (item : String × String)
    (name value : String) : Bool :=
  if strieq item.1 name then
    if strifind item.2 value then true else result
  else result

/-- Embeds `check_transfer_encoding_chunked` (lines 129-135). -/
def check_transfer_encoding_chunked (chunked : Bool)
    (item : String × String) : Bool :=
  check_header_field chunked item "transfer-encoding" "chunked"

/-- Embeds `check_expect_100_continue` (lines 137-143). -/
def check_expect_100_continue (res : Bool) (item : String × String) : Bool :=
  check_header_field res item "expect" "100-continue"

/-- Embeds `Downstream::add_request_header`: enters key mode and pushes the new
(name, value) pair. -/
def Downstream.add_request_header (d : Downstream) (name value : String) :
    Downstream :=
  { d with request_header_key_prev := true
           request_headers := d.request_headers ++ [(name, value)] }

/-- Embeds `Downstream::set_last_request_header_value`: leaves key mode, replaces
the value of the last field, and recomputes the chunked-request and
expect-100-continue flags against that field.  `request_headers_.back()`
on an empty vector is undefined behaviour, modelled as `none`. -/
def Downstream.set_last_request_header_value (d : Downstream)
    (value : String) : Option Downstream :=
  match d.request_headers.getLast? with
  | none => none
  | some item0 =>
    let item := (item0.1, value)
    some { d with
      request_header_key_prev := false
      request_headers := d.request_headers.dropLast ++ [item]
      chunked_request := check_transfer_encoding_chunked d.chunked_request item
      request_expect_100_continue :=
        check_expect_100_continue d.request_expect_100_continue item }

/-- Embeds `Downstream::append_last_request_header_key`: asserts key mode, then
appends to the name of the last field.  A failed assertion (key mode inactive)
and `back()` on an empty vector are both modelled as `none`. -/
def Downstream.append_last_request_header_key (d : Downstream)
    (data : String) : Option Downstream :=
  if d.request_header_key_prev then
    match d.request_headers.getLast? with
    | none => none
    | some item0 =>
      some { d with request_headers :=
        d.request_headers.dropLast ++ [(item0.1 ++ data, item0.2)] }
  else none

/-- Embeds `Downstream::append_last_request_header_value`: asserts key mode is
inactive, then appends to the value of the last field. -/
def Downstream.append_last_request_header_value (d : Downstream)
    (data : String) : Option Downstream :=
  if d.request_header_key_prev then none
  else
    match d.request_headers.getLast? with
    | none => none
    | some item0 =>
      some { d with request_headers :=
        d.request_headers.dropLast ++ [(item0.1, item0.2 ++ data)] }

/-- Embeds `Downstream::add_response_header`: enters key mode, pushes the pair,
and recomputes the chunked-response flag against the just-pushed field. -/
def Downstream.add_response_header (d : Downstream) (name value : String) :
    Downstream :=
  { d with response_header_key_prev := true
           response_headers := d.response_headers ++ [(name, value)]
           chunked_response :=
             check_transfer_encoding_chunked d.chunked_response (name, value) }

/-- Embeds `Downstream::set_last_response_header_value`: leaves key mode, replaces
the value of the last field, and recomputes the chunked-response flag against
that field. -/
def Downstream.set_last_response_header_value (d : Downstream)
    (value : String) : Option Downstream :=
  match d.response_headers.getLast? with
  | none => none
  | some item0 =>
    let item := (item0.1, value)
    some { d with
      response_header_key_prev := false
      response_headers := d.response_headers.dropLast ++ [item]
      chunked_response :=
        check_transfer_encoding_chunked d.chunked_response item }

/-- Embeds `Downstream::append_last_response_header_key`: asserts key mode, then
appends to the name of the last field. -/
def Downstream.append_last_response_header_key (d : Downstream)
    (data : String) : Option Downstream :=
  if d.response_header_key_prev then
    match d.response_headers.getLast? with
    | none => none
    | some item0 =>
      some { d with response_headers :=
        d.response_headers.dropLast ++ [(item0.1 ++ data, item0.2)] }
  else none

/-- Embeds `Downstream::append_last_response_header_value`: asserts key mode is
inactive, then appends to the value of the last field. -/
def Downstream.append_last_response_header_value (d : Downstream)
    (data : String) : Option Downstream :=
  if d.response_header_key_prev then none
  else
    match d.response_headers.getLast? with
    | none => none
    | some item0 =>
      some { d with response_headers :=
        d.response_headers.dropLast ++ [(item0.1, item0.2 ++ data)] }

/-- Modelled from the spec: `DOWNSTREAM_OUTPUT_UPPER_THRES`, the fixed
high-water threshold on the outbound queue of the transport
(`shrpx_downstream.h` is not under `src/`). -/
def DOWNSTREAM_OUTPUT_UPPER_THRES : Nat := 65536

/-- Embeds `Downstream::get_output_buffer_full` (lines 285-294): with a transport
attached, true iff its outbound queue length is at or above the threshold;
with none attached, false. -/
def Downstream.get_output_buffer_full (d : Downstream) : Bool :=
  match d.dconn with
  | some c =>
    if DOWNSTREAM_OUTPUT_UPPER_THRES ≤ c.output_length then true else false
  | none => false

/-- Embeds `Downstream::push_request_headers` (lines 296-301): dereferences the
transport unconditionally ("Call this function after this object is
attached to Downstream.  Otherwise, the program will crash.").  The null
dereference is modelled as `none`. -/
def Downstream.push_request_headers (d : Downstream) : Option Int :=
  match d.dconn with
  | none => none
  | some c => some c.push_request_headers_result

/-- Embeds `Downstream::push_upload_data_chunk` (lines 303-312): with no
transport, logs a warning and returns 0; otherwise forwards the bytes and
returns the status of the transport.  The pair carries the (unchanged)
Downstream alongside the status. -/
def Downstream.push_upload_data_chunk (d : Downstream) (data : List Nat) :
    Int × Downstream :=
  match d.dconn with
  | none => (0, d)
  | some c => (c.push_upload_data_chunk_result data, d)

/-- Embeds `Downstream::set_response_http_status`. -/
def Downstream.set_response_http_status (d : Downstream) (status : Nat) :
    Downstream :=
  { d with response_http_status := status }

/-- Embeds `Downstream::set_response_major`. -/
def Downstream.set_response_major (d : Downstream) (major : Nat) :
    Downstream :=
  { d with response_major := major }

/-- Embeds `Downstream::set_response_minor`. -/
def Downstream.set_response_minor (d : Downstream) (minor : Nat) :
    Downstream :=
  { d with response_minor := minor }

/-- Embeds `Downstream::set_response_connection_close`. -/
def Downstream.set_response_connection_close (d : Downstream) (f : Bool) :
    Downstream :=
  { d with response_connection_close := f }

/-- Embeds `Downstream::set_response_state` (lines 529-532): plain unconditional
assignment of the state field. -/
def Downstream.set_response_state (d : Downstream) (state : DownstreamState) :
    Downstream :=
  { d with response_state := state }

/-- Embeds `Downstream::set_request_method`. -/
def Downstream.set_request_method (d : Downstream) (method : String) :
    Downstream :=
  { d with request_method := method }

/-- Wrap (twos complement) of an integer into the `int32_t` range, used
where the source performs `int32_t` arithmetic. -/
def toInt32 (x : Int) : Int :=
  (x + 2147483648) % 4294967296 - 2147483648

/-- Embeds `Downstream::inc_recv_window_size` (lines 576-579):
`recv_window_size_ += amount` on `int32_t`, so the sum wraps on overflow
and is never clamped. -/
def Downstream.inc_recv_window_size (d : Downstream) (amount : Int) :
    Downstream :=
  { d with recv_window_size := toInt32 (d.recv_window_size + amount) }

/-- Embeds `Downstream::set_recv_window_size` (lines 581-584): plain assignment
of the `int32_t` field. -/
def Downstream.set_recv_window_size (d : Downstream) (new_size : Int) :
    Downstream :=
  { d with recv_window_size := toInt32 new_size }

/-- Embeds `Downstream::tunnel_established` (lines 586-590): request method is
"CONNECT" and the response status lies in [200, 300). -/
def Downstream.tunnel_established (d : Downstream) : Bool :=
  d.request_method == "CONNECT" &&
    decide (200 ≤ d.response_http_status) &&
    decide (d.response_http_status < 300)

/-- Embeds `htp_hdrs_completecb` (lines 417-441): records status/version/
connection-close from the parser state, advances the response state to
HEADER_COMPLETE, notifies the multiplexer (a nonzero return yields -1),
then returns 1 (skip body) exactly for a HEAD request or a status in
[100,199] or equal to 204 or 304, and 0 otherwise.  The parser fields
`status_code`, `http_major`, `http_minor` and `http_should_keep_alive`
are passed in as arguments. -/
def htp_hdrs_completecb (status_code http_major http_minor : Nat)
    (keep_alive : Bool) (d : Downstream) : Int × Downstream :=
  let d := d.set_response_http_status status_code
  let d := d.set_response_major http_major
  let d := d.set_response_minor http_minor
  let d := d.set_response_connection_close (!keep_alive)
  let d := d.set_response_state .HEADER_COMPLETE
  if d.upstream.on_downstream_header_complete_result ≠ 0 then
    (-1, d)
  else
    let status := d.response_http_status
    (if d.request_method = "HEAD" ∨ (100 ≤ status ∧ status ≤ 199) ∨
        status = 204 ∨ status = 304 then 1 else 0, d)

/-- Embeds `htp_hdr_keycb` (lines 443-455): in key mode, append to the last
name of the last response field; otherwise start a fresh field with an empty
value. -/
def htp_hdr_keycb (data : String) (d : Downstream) :
    Option (Int × Downstream) :=
  if d.response_header_key_prev then
    (d.append_last_response_header_key data).map (fun d2 => (0, d2))
  else
    some (0, d.add_response_header data "")

/-- Embeds `htp_hdr_valcb` (lines 457-469): in key mode, install the fragment as
the value of the field; otherwise append to the current value. -/
def htp_hdr_valcb (data : String) (d : Downstream) :
    Option (Int × Downstream) :=
  if d.response_header_key_prev then
    (d.set_last_response_header_value data).map (fun d2 => (0, d2))
  else
    (d.append_last_response_header_value data).map (fun d2 => (0, d2))

/-- Embeds `htp_bodycb` (lines 471-480): forwards the body bytes to the
multiplexer and returns its status. -/
def htp_bodycb (data : List Nat) (d : Downstream) : Int × Downstream :=
  (d.upstream.on_downstream_body_result data, d)

/-- Embeds `htp_msg_completecb` (lines 482-491): advances the response state to
MSG_COMPLETE and notifies the multiplexer. -/
def htp_msg_completecb (d : Downstream) : Int × Downstream :=
  let d := d.set_response_state .MSG_COMPLETE
  (d.upstream.on_downstream_body_complete_result, d)

/-- A parser event, as dispatched through `htp_hooks` (lines 493-503). -/
inductive HtpEvent where
  | key (data : String)
  | value (data : String)
  | hdrsComplete (status_code http_major http_minor : Nat) (keep_alive : Bool)
  | body (data : List Nat)
  | msgComplete
  deriving Repr

/-- Dispatch of one parser event to the callback registered for it in
`htp_hooks`.  `none` records an assertion failure inside a header-append
callback. -/
def htpStep (e : HtpEvent) (d : Downstream) : Option (Int × Downstream) :=
  match e with
  | .key data => htp_hdr_keycb data d
  | .value data => htp_hdr_valcb data d
  | .hdrsComplete s ma mi ka => some (htp_hdrs_completecb s ma mi ka d)
  | .body data => some (htp_bodycb data d)
  | .msgComplete => some (htp_msg_completecb d)

/-- Modelled from the spec: whether http_parser stops after a given callback
return code — the headers-complete callback may return 1 to skip the body
and parsing continues; any other nonzero return aborts. -/
def htpAborts (e : HtpEvent) (rc : Int) : Bool :=
  match e with
  | .hdrsComplete _ _ _ _ => rc ≠ 0 && rc ≠ 1
  | _ => rc ≠ 0

/-- Modelled from the spec: the parser invokes the registered callbacks in
event order, stopping on an aborting return code.  The result is the trace
of Downstream states after each processed event. -/
def htpRun (evs : List HtpEvent) (d : Downstream) : List Downstream :=
  match evs with
  | [] => []
  | e :: rest =>
    match htpStep e d with
    | none => []
    | some (rc, d2) =>
      if htpAborts e rc then [d2] else d2 :: htpRun rest d2

/-- Modelled from the spec: what http_parser does right after the
headers-complete callback returns — a return of 1 skips the body entirely
(even when a header claims a length) and proceeds straight to
message-complete; a return of 0 delivers the body bytes of the message and then
message-complete; -1 aborts.  The first component collects the body
chunks delivered to the multiplexer. -/
def runAfterHeaders (status_code http_major http_minor : Nat)
    (keep_alive : Bool) (claimed_body : List Nat) (d : Downstream) :
    List (List Nat) × Downstream :=
  let (rc, d1) := htp_hdrs_completecb status_code http_major http_minor
    keep_alive d
  if rc = -1 then ([], d1)
  else if rc = 1 then
    let (_, d2) := htp_msg_completecb d1
    ([], d2)
  else
    let (brc, d2) := htp_bodycb claimed_body d1
    if brc ≠ 0 then ([claimed_body], d2)
    else
      let (_, d3) := htp_msg_completecb d2
      ([claimed_body], d3)

/-- Modelled from the spec: `SHRPX_ERR_HTTP_PARSE`, the single taxonomy
value every backend-response grammar failure maps to (`shrpx_error.h` is
not under `src/`). -/
def SHRPX_ERR_HTTP_PARSE : Int := -100

/-- Embeds `HPE_OK`, the no-error value of http_parser. -/
def HPE_OK : Nat := 0

/-- Modelled from the spec: the outcome of one `http_parser_execute` call
on a byte buffer — how many bytes the parser consumed and the resulting
error number afterwards (`HPE_OK` when the bytes form a complete or an
incomplete-but-valid partial message). -/
structure HtpOutcome where
  nread : Nat
  err : Nat

/-- Embeds `Downstream::parse_http_response` (lines 505-527): pulls up the whole
inbound buffer, feeds all of it to `http_parser_execute` (abstracted as
`exec`), drains exactly the consumed bytes, and returns 0 on `HPE_OK` and
`SHRPX_ERR_HTTP_PARSE` on every other parser error number.  The result is
the status code paired with the remaining inbound buffer. -/
def parse_http_response (exec : List Nat → HtpOutcome) (input : List Nat) :
    Int × List Nat :=
  let out := exec input
  let remaining := input.drop out.nread
  (if out.err = HPE_OK then 0 else SHRPX_ERR_HTTP_PARSE, remaining)

/-- The derived flags of a Downstream that are recomputed against
finalized header fields: chunked-request, chunked-response and
expect-100-continue. -/
def derived_flags (d : Downstream) : Bool × Bool × Bool :=
  (d.chunked_request, d.chunked_response, d.request_expect_100_continue)

/-! Concrete collaborators and a concretely constructed Downstream, used to
instantiate the theorems below on executable inputs. -/

/-- A multiplexer whose notifications all return 0 (continue). -/
def upstream0 : Upstream where
  on_downstream_header_complete_result := 0
  on_downstream_body_result := fun _ => 0
  on_downstream_body_complete_result := 0

/-- A transport whose operations all return 0 and whose outbound queue
holds 70000 bytes. -/
def dconn0 : DownstreamConnection where
  push_request_headers_result := 0
  push_upload_data_chunk_result := fun _ => 0
  end_upload_data_result := 0
  output_length := 70000

/-- A freshly constructed Downstream for stream 1, priority 0. -/
def d0 : Downstream := Downstream.make upstream0 1 0

/-- Values already in the `int32_t` range are fixed by `toInt32`. -/
theorem toInt32_eq_self {x : Int} (h1 : -2147483648 ≤ x)
    (h2 : x < 2147483648) : toInt32 x = x := by
  unfold toInt32
  omega

/-- C2: `tunnel_established` returns true iff the stored request method
equals "CONNECT" and the stored response status lies in [200, 300); in
particular it is false for status 199, for status 300, and for any
non-CONNECT method. -/
theorem tunnel_established_spec :
    (∀ d : Downstream, d.tunnel_established = true ↔
      (d.request_method = "CONNECT" ∧ 200 ≤ d.response_http_status ∧
        d.response_http_status < 300)) ∧
    (∀ d : Downstream, d.response_http_status = 199 →
      d.tunnel_established = false) ∧
    (∀ d : Downstream, d.response_http_status = 300 →
      d.tunnel_established = false) ∧
    (∀ d : Downstream, d.request_method ≠ "CONNECT" →
      d.tunnel_established = false) := by
  have key : ∀ d : Downstream, d.tunnel_established = true ↔
      (d.request_method = "CONNECT" ∧ 200 ≤ d.response_http_status ∧
        d.response_http_status < 300) := by
    intro d
    simp [Downstream.tunnel_established, and_assoc]
  refine ⟨key, ?_, ?_, ?_⟩
  · intro d h
    rcases hb : d.tunnel_established with _ | _
    · rfl
    · rcases (key d).mp hb with ⟨_, _, h3⟩
      omega
  · intro d h
    rcases hb : d.tunnel_established with _ | _
    · rfl
    · rcases (key d).mp hb with ⟨_, _, h3⟩
      omega
  · intro d h
    rcases hb : d.tunnel_established with _ | _
    · rfl
    · exact absurd ((key d).mp hb).1 h

/-- C2 witness: a CONNECT exchange with status 200 is a tunnel, and a
fresh Downstream (empty method, status 0) is not. -/
theorem tunnel_established_spec_witness :
    ((d0.set_request_method "CONNECT").set_response_http_status 200).tunnel_established
        = true ∧
    d0.tunnel_established = false :=
  ⟨(tunnel_established_spec.1 _).mpr ⟨rfl, by decide, by decide⟩,
   tunnel_established_spec.2.2.2 d0 (by decide)⟩

/-- C7 (amended): `set_recv_window_size v` then `inc_recv_window_size d`
performs plain signed `int32_t` arithmetic with no clamping to zero, so
whenever v + d fits in the signed 32-bit range the stored window value is
exactly v + d — negative values included. -/
theorem recv_window_set_then_inc (d : Downstream) (v a : Int)
    (hv1 : -2147483648 ≤ v) (hv2 : v < 2147483648)
    (ha1 : -2147483648 ≤ a) (ha2 : a < 2147483648)
    (hs1 : -2147483648 ≤ v + a) (hs2 : v + a < 2147483648) :
    ((d.set_recv_window_size v).inc_recv_window_size a).recv_window_size
      = v + a := by
  have := ha1
  have := ha2
  simp [Downstream.set_recv_window_size, Downstream.inc_recv_window_size,
    toInt32_eq_self hv1 hv2, toInt32_eq_self hs1 hs2]

/-- C7 witness: set(1000) then add(-1500) stores -500 — the window goes
negative, with no clamping. -/
theorem recv_window_set_then_inc_witness :
    ((d0.set_recv_window_size 1000).inc_recv_window_size (-1500)).recv_window_size
      = -500 := by
  have h := recv_window_set_then_inc d0 1000 (-1500)
    (by norm_num) (by norm_num) (by norm_num) (by norm_num)
    (by norm_num) (by norm_num)
  omega

/-- C7 counterexample: at v = 2147483647, d = 1 the stored `int32_t`
value wraps to -2147483648, which is not v + d, so "exactly v + d for all
signed 32-bit values" fails at overflow. -/
theorem recv_window_wraps_on_overflow :
    ((d0.set_recv_window_size 2147483647).inc_recv_window_size 1).recv_window_size
        = -2147483648 ∧
    (-2147483648 : Int) ≠ 2147483647 + 1 := by
  constructor
  · simp [d0, Downstream.make, Downstream.set_recv_window_size,
      Downstream.inc_recv_window_size, toInt32]
  · decide

/-- C10: with no transport attached, `get_output_buffer_full` returns
false; with a transport attached, it returns true iff the outbound queue
length of the transport is at or above `DOWNSTREAM_OUTPUT_UPPER_THRES`. -/
theorem get_output_buffer_full_spec :
    (∀ d : Downstream, d.dconn = none → d.get_output_buffer_full = false) ∧
    (∀ (d : Downstream) (c : DownstreamConnection), d.dconn = some c →
      (d.get_output_buffer_full = true ↔
        DOWNSTREAM_OUTPUT_UPPER_THRES ≤ c.output_length)) := by
  constructor
  · intro d h
    simp [Downstream.get_output_buffer_full, h]
  · intro d c h
    simp [Downstream.get_output_buffer_full, h]

/-- C10 witness: a fresh Downstream (no transport) reports a non-full
output buffer; attaching a transport with 70000 ≥ 65536 queued bytes
makes it report full. -/
theorem get_output_buffer_full_spec_witness :
    d0.get_output_buffer_full = false ∧
    (d0.set_downstream_connection (some dconn0)).get_output_buffer_full
      = true :=
  ⟨get_output_buffer_full_spec.1 d0 rfl,
   (get_output_buffer_full_spec.2 _ dconn0 rfl).mpr (by decide)⟩

/-- C4: `push_request_headers` requires an attached transport — with one
it forwards the request headers and returns the status of the transport;
with none the call is outside the contract (a crash in the source),
modelled as `none`, never a silent no-op result. -/
theorem push_request_headers_spec :
    (∀ d : Downstream, d.dconn = none → d.push_request_headers = none) ∧
    (∀ (d : Downstream) (c : DownstreamConnection), d.dconn = some c →
      d.push_request_headers = some c.push_request_headers_result) := by
  constructor
  · intro d h
    simp [Downstream.push_request_headers, h]
  · intro d c h
    simp [Downstream.push_request_headers, h]

/-- C4 witness: a fresh Downstream has no transport, and pushing request
headers on it is the modelled precondition violation; with a transport
attached the push returns the transport status. -/
theorem push_request_headers_spec_witness :
    d0.push_request_headers = none ∧
    (d0.set_downstream_connection (some dconn0)).push_request_headers
      = some dconn0.push_request_headers_result :=
  ⟨push_request_headers_spec.1 d0 rfl,
   push_request_headers_spec.2 _ dconn0 rfl⟩

/-- C5: `push_upload_data_chunk` with no transport attached returns the
no-op "zero bytes sent" status 0 and leaves the Downstream unchanged;
with a transport attached it forwards the bytes and returns the status of
the transport. -/
theorem push_upload_data_chunk_spec :
    (∀ (d : Downstream) (data : List Nat), d.dconn = none →
      d.push_upload_data_chunk data = (0, d)) ∧
    (∀ (d : Downstream) (c : DownstreamConnection) (data : List Nat),
      d.dconn = some c →
      d.push_upload_data_chunk data
        = (c.push_upload_data_chunk_result data, d)) := by
  constructor
  · intro d data h
    simp [Downstream.push_upload_data_chunk, h]
  · intro d c data h
    simp [Downstream.push_upload_data_chunk, h]

/-- C5 witness: uploading a chunk on a transportless Downstream yields
status 0 with the state untouched. -/
theorem push_upload_data_chunk_spec_witness :
    d0.push_upload_data_chunk [1, 2, 3] = (0, d0) :=
  push_upload_data_chunk_spec.1 d0 [1, 2, 3] rfl

/-- C6: `parse_http_response` drains exactly the bytes the parser
consumed, returns 0 iff the parser reports no error (so an
incomplete-but-valid partial message is a success), and maps every parser
failure to the single code `SHRPX_ERR_HTTP_PARSE`. -/
theorem parse_http_response_spec (exec : List Nat → HtpOutcome)
    (input : List Nat) :
    (parse_http_response exec input).2 = input.drop (exec input).nread ∧
    ((parse_http_response exec input).1 = 0 ↔ (exec input).err = HPE_OK) ∧
    ((exec input).err ≠ HPE_OK →
      (parse_http_response exec input).1 = SHRPX_ERR_HTTP_PARSE) := by
  refine ⟨rfl, ?_, ?_⟩
  · simp only [parse_http_response]
    split
    · simp_all
    · simp_all [SHRPX_ERR_HTTP_PARSE]
  · intro h
    simp [parse_http_response, h]

/-- C6 witness: a parser outcome that consumes one byte with error number
1 makes `parse_http_response` drain that byte and return the single parse
error code. -/
theorem parse_http_response_spec_witness :
    (parse_http_response (fun l => ⟨l.length - 1, 1⟩) [7, 8]).1
        = SHRPX_ERR_HTTP_PARSE ∧
    (parse_http_response (fun l => ⟨l.length - 1, 1⟩) [7, 8]).2 = [8] := by
  have h := parse_http_response_spec (fun l => ⟨l.length - 1, 1⟩) [7, 8]
  exact ⟨h.2.2 (by decide), h.1⟩

set_option maxHeartbeats 1000000 in
/-- C1: given the multiplexer notification returned 0, the
headers-complete callback returns the skip-body indication 1 exactly when
the request method is "HEAD" or the status lies in [100,199] or equals
204 or 304, and 0 otherwise; in the skip cases no body bytes are
delivered to the multiplexer even though a body was claimed, and the
response goes straight from HEADER_COMPLETE to MSG_COMPLETE. -/
theorem htp_hdrs_complete_skip_body (d : Downstream)
    (status ma mi : Nat) (ka : Bool) (claimed_body : List Nat)
    (h : d.upstream.on_downstream_header_complete_result = 0) :
    ((htp_hdrs_completecb status ma mi ka d).1 = 1 ↔
      (d.request_method = "HEAD" ∨ (100 ≤ status ∧ status ≤ 199) ∨
        status = 204 ∨ status = 304)) ∧
    ((htp_hdrs_completecb status ma mi ka d).1 = 1 ∨
      (htp_hdrs_completecb status ma mi ka d).1 = 0) ∧
    ((d.request_method = "HEAD" ∨ (100 ≤ status ∧ status ≤ 199) ∨
        status = 204 ∨ status = 304) →
      (runAfterHeaders status ma mi ka claimed_body d).1 = [] ∧
      (htp_hdrs_completecb status ma mi ka d).2.response_state
        = DownstreamState.HEADER_COMPLETE ∧
      (runAfterHeaders status ma mi ka claimed_body d).2.response_state
        = DownstreamState.MSG_COMPLETE) := by
  have hmain : htp_hdrs_completecb status ma mi ka d
      = (if d.request_method = "HEAD" ∨ (100 ≤ status ∧ status ≤ 199) ∨
            status = 204 ∨ status = 304 then (1 : Int) else 0,
          ((((d.set_response_http_status status).set_response_major
            ma).set_response_minor mi).set_response_connection_close
            (!ka)).set_response_state DownstreamState.HEADER_COMPLETE) := by
    unfold htp_hdrs_completecb
    simp only [Downstream.set_response_http_status,
      Downstream.set_response_major, Downstream.set_response_minor,
      Downstream.set_response_connection_close, Downstream.set_response_state]
    rw [if_neg (by simp [h])]
  by_cases hc : d.request_method = "HEAD" ∨ (100 ≤ status ∧ status ≤ 199) ∨
      status = 204 ∨ status = 304
  · refine ⟨by simp [hmain, hc], Or.inl (by simp [hmain, hc]), fun _ => ?_⟩
    refine ⟨?_, ?_, ?_⟩
    · simp [runAfterHeaders, hmain, hc, htp_msg_completecb]
    · simp [hmain, Downstream.set_response_state]
    · simp [runAfterHeaders, hmain, hc, htp_msg_completecb,
        Downstream.set_response_state]
  · exact ⟨by simp [hmain, hc], Or.inr (by simp [hmain, hc]),
      fun hcc => absurd hcc hc⟩

/-- C1 witness: a 204 response on a fresh Downstream (multiplexer returns
0) takes the skip-body path — callback returns 1, no body chunk reaches
the multiplexer, and the state lands at MSG_COMPLETE. -/
theorem htp_hdrs_complete_skip_body_witness :
    (htp_hdrs_completecb 204 1 1 true d0).1 = 1 ∧
    (runAfterHeaders 204 1 1 true [7] d0).1 = [] ∧
    (runAfterHeaders 204 1 1 true [7] d0).2.response_state
      = DownstreamState.MSG_COMPLETE := by
  have h := htp_hdrs_complete_skip_body d0 204 1 1 true [7] rfl
  have hc : d0.request_method = "HEAD" ∨ ((100 : Nat) ≤ 204 ∧ (204 : Nat) ≤ 199) ∨
      (204 : Nat) = 204 ∨ (204 : Nat) = 304 := Or.inr (Or.inr (Or.inl rfl))
  exact ⟨h.1.mpr hc, (h.2.2 hc).1, (h.2.2 hc).2.2⟩

/-- C3: the four last-field append operations succeed exactly when the
corresponding key-mode flag has the required polarity (active for key
appends, inactive for value appends) and a last field exists; a
violating call is the modelled fatal assertion (`none`), and under the
precondition each append rewrites only the last stored field of its own
header store. -/
theorem header_append_mode_spec :
    (∀ (d : Downstream) (s : String),
      (d.append_last_request_header_key s).isSome = true ↔
        (d.request_header_key_prev = true ∧ d.request_headers ≠ [])) ∧
    (∀ (d : Downstream) (s : String),
      (d.append_last_request_header_value s).isSome = true ↔
        (d.request_header_key_prev = false ∧ d.request_headers ≠ [])) ∧
    (∀ (d : Downstream) (s : String),
      (d.append_last_response_header_key s).isSome = true ↔
        (d.response_header_key_prev = true ∧ d.response_headers ≠ [])) ∧
    (∀ (d : Downstream) (s : String),
      (d.append_last_response_header_value s).isSome = true ↔
        (d.response_header_key_prev = false ∧ d.response_headers ≠ [])) ∧
    (∀ (d d2 : Downstream) (s n v : String),
      d.append_last_request_header_key s = some d2 →
      d.request_headers.getLast? = some (n, v) →
      d2.request_headers = d.request_headers.dropLast ++ [(n ++ s, v)] ∧
      d2.response_headers = d.response_headers) ∧
    (∀ (d d2 : Downstream) (s n v : String),
      d.append_last_request_header_value s = some d2 →
      d.request_headers.getLast? = some (n, v) →
      d2.request_headers = d.request_headers.dropLast ++ [(n, v ++ s)] ∧
      d2.response_headers = d.response_headers) ∧
    (∀ (d d2 : Downstream) (s n v : String),
      d.append_last_response_header_key s = some d2 →
      d.response_headers.getLast? = some (n, v) →
      d2.response_headers = d.response_headers.dropLast ++ [(n ++ s, v)] ∧
      d2.request_headers = d.request_headers) ∧
    (∀ (d d2 : Downstream) (s n v : String),
      d.append_last_response_header_value s = some d2 →
      d.response_headers.getLast? = some (n, v) →
      d2.response_headers = d.response_headers.dropLast ++ [(n, v ++ s)] ∧
      d2.request_headers = d.request_headers) := by
  refine ⟨?_, ?_, ?_, ?_, ?_, ?_, ?_, ?_⟩
  · intro d s
    unfold Downstream.append_last_request_header_key
    by_cases hk : d.request_header_key_prev
    · cases hl : d.request_headers.getLast? with
      | none => simp [hk, hl, List.getLast?_eq_none_iff.mp hl]
      | some item =>
        have hne : d.request_headers ≠ [] := by
          intro he
          rw [he] at hl
          simp at hl
        simp [hk, hl, hne]
    · simp [hk]
  · intro d s
    unfold Downstream.append_last_request_header_value
    by_cases hk : d.request_header_key_prev
    · simp [hk]
    · cases hl : d.request_headers.getLast? with
      | none => simp [hk, hl, List.getLast?_eq_none_iff.mp hl]
      | some item =>
        have hne : d.request_headers ≠ [] := by
          intro he
          rw [he] at hl
          simp at hl
        simp [hk, hl, hne]
  · intro d s
    unfold Downstream.append_last_response_header_key
    by_cases hk : d.response_header_key_prev
    · cases hl : d.response_headers.getLast? with
      | none => simp [hk, hl, List.getLast?_eq_none_iff.mp hl]
      | some item =>
        have hne : d.response_headers ≠ [] := by
          intro he
          rw [he] at hl
          simp at hl
        simp [hk, hl, hne]
    · simp [hk]
  · intro d s
    unfold Downstream.append_last_response_header_value
    by_cases hk : d.response_header_key_prev
    · simp [hk]
    · cases hl : d.response_headers.getLast? with
      | none => simp [hk, hl, List.getLast?_eq_none_iff.mp hl]
      | some item =>
        have hne : d.response_headers ≠ [] := by
          intro he
          rw [he] at hl
          simp at hl
        simp [hk, hl, hne]
  · intro d d2 s n v happ hl
    unfold Downstream.append_last_request_header_key at happ
    by_cases hk : d.request_header_key_prev
    · simp only [hk, if_true, hl, Option.some.injEq] at happ
      subst happ
      exact ⟨rfl, rfl⟩
    · simp [hk] at happ
  · intro d d2 s n v happ hl
    unfold Downstream.append_last_request_header_value at happ
    by_cases hk : d.request_header_key_prev
    · simp [hk] at happ
    · simp only [hk, if_false, Bool.false_eq_true, ite_false, hl,
        Option.some.injEq] at happ
      subst happ
      exact ⟨rfl, rfl⟩
  · intro d d2 s n v happ hl
    unfold Downstream.append_last_response_header_key at happ
    by_cases hk : d.response_header_key_prev
    · simp only [hk, if_true, hl, Option.some.injEq] at happ
      subst happ
      exact ⟨rfl, rfl⟩
    · simp [hk] at happ
  · intro d d2 s n v happ hl
    unfold Downstream.append_last_response_header_value at happ
    by_cases hk : d.response_header_key_prev
    · simp [hk] at happ
    · simp only [hk, if_false, Bool.false_eq_true, ite_false, hl,
        Option.some.injEq] at happ
      subst happ
      exact ⟨rfl, rfl⟩

/-- C3 witness: with one request field ("host", "") just begun (key mode
active), a key append succeeds and rewrites exactly that field, and the
same call is the fatal assertion on a fresh Downstream whose key mode is
inactive. -/
theorem header_append_mode_spec_witness :
    ((d0.add_request_header "host" "").append_last_request_header_key
        "x").map (fun d2 => d2.request_headers) = some [("hostx", "")] ∧
    (d0.append_last_request_header_key "x").isSome = false := by
  constructor
  · cases he : (d0.add_request_header "host" "").append_last_request_header_key "x" with
    | none =>
      have hs := (header_append_mode_spec.1
        (d0.add_request_header "host" "") "x").mpr ⟨rfl, by decide⟩
      rw [he] at hs
      simp at hs
    | some d2 =>
      have hm := header_append_mode_spec.2.2.2.2.1
        (d0.add_request_header "host" "") d2 "x" "host" "" he rfl
      simp [Option.map_some', hm.1]
      decide
  · rcases hi : (d0.append_last_request_header_key "x").isSome with _ | _
    · rfl
    · have := (header_append_mode_spec.1 d0 "x").mp hi
      simp [d0, Downstream.make] at this

/-- C8: the derived flags (chunked-request, chunked-response,
expect-100-continue) never change on a key or value fragment append;
starting a request field leaves them unchanged as well; they are
re-evaluated only by the operations that install a complete field value
(`set_last_request_header_value`, `add_response_header`,
`set_last_response_header_value`), and that re-evaluation reads only the
previous flag and the just-finalized (name, value) field. -/
theorem derived_flags_spec :
    (∀ (d d2 : Downstream) (s : String),
      d.append_last_request_header_key s = some d2 →
      derived_flags d2 = derived_flags d) ∧
    (∀ (d d2 : Downstream) (s : String),
      d.append_last_request_header_value s = some d2 →
      derived_flags d2 = derived_flags d) ∧
    (∀ (d d2 : Downstream) (s : String),
      d.append_last_response_header_key s = some d2 →
      derived_flags d2 = derived_flags d) ∧
    (∀ (d d2 : Downstream) (s : String),
      d.append_last_response_header_value s = some d2 →
      derived_flags d2 = derived_flags d) ∧
    (∀ (d : Downstream) (n v : String),
      derived_flags (d.add_request_header n v) = derived_flags d) ∧
    (∀ (d d2 : Downstream) (v n v0 : String),
      d.request_headers.getLast? = some (n, v0) →
      d.set_last_request_header_value v = some d2 →
      d2.chunked_request
        = check_transfer_encoding_chunked d.chunked_request (n, v) ∧
      d2.request_expect_100_continue
        = check_expect_100_continue d.request_expect_100_continue (n, v) ∧
      d2.chunked_response = d.chunked_response) ∧
    (∀ (d : Downstream) (n v : String),
      (d.add_response_header n v).chunked_response
        = check_transfer_encoding_chunked d.chunked_response (n, v) ∧
      (d.add_response_header n v).chunked_request = d.chunked_request ∧
      (d.add_response_header n v).request_expect_100_continue
        = d.request_expect_100_continue) ∧
    (∀ (d d2 : Downstream) (v n v0 : String),
      d.response_headers.getLast? = some (n, v0) →
      d.set_last_response_header_value v = some d2 →
      d2.chunked_response
        = check_transfer_encoding_chunked d.chunked_response (n, v) ∧
      d2.chunked_request = d.chunked_request ∧
      d2.request_expect_100_continue = d.request_expect_100_continue) := by
  refine ⟨?_, ?_, ?_, ?_, ?_, ?_, ?_, ?_⟩
  · intro d d2 s happ
    unfold Downstream.append_last_request_header_key at happ
    by_cases hk : d.request_header_key_prev
    · cases hl : d.request_headers.getLast? with
      | none => simp [hk, hl] at happ
      | some item =>
        simp only [hk, if_true, hl, Option.some.injEq] at happ
        subst happ
        rfl
    · simp [hk] at happ
  · intro d d2 s happ
    unfold Downstream.append_last_request_header_value at happ
    by_cases hk : d.request_header_key_prev
    · simp [hk] at happ
    · cases hl : d.request_headers.getLast? with
      | none => simp [hk, hl] at happ
      | some item =>
        simp only [hk, if_false, Bool.false_eq_true, ite_false, hl,
          Option.some.injEq] at happ
        subst happ
        rfl
  · intro d d2 s happ
    unfold Downstream.append_last_response_header_key at happ
    by_cases hk : d.response_header_key_prev
    · cases hl : d.response_headers.getLast? with
      | none => simp [hk, hl] at happ
      | some item =>
        simp only [hk, if_true, hl, Option.some.injEq] at happ
        subst happ
        rfl
    · simp [hk] at happ
  · intro d d2 s happ
    unfold Downstream.append_last_response_header_value at happ
    by_cases hk : d.response_header_key_prev
    · simp [hk] at happ
    · cases hl : d.response_headers.getLast? with
      | none => simp [hk, hl] at happ
      | some item =>
        simp only [hk, if_false, Bool.false_eq_true, ite_false, hl,
          Option.some.injEq] at happ
        subst happ
        rfl
  · intro d n v
    rfl
  · intro d d2 v n v0 hl hset
    unfold Downstream.set_last_request_header_value at hset
    simp only [hl, Option.some.injEq] at hset
    subst hset
    exact ⟨rfl, rfl, rfl⟩
  · intro d n v
    exact ⟨rfl, rfl, rfl⟩
  · intro d d2 v n v0 hl hset
    unfold Downstream.set_last_response_header_value at hset
    simp only [hl, Option.some.injEq] at hset
    subst hset
    exact ⟨rfl, rfl, rfl⟩

/-- C8 witness: appending a value fragment "chunked" to a finalized
transfer-encoding field does not set the chunked-response flag, while
installing the complete value through `add_response_header` does. -/
theorem derived_flags_spec_witness :
    (d0.add_response_header "transfer-encoding" "chunked").chunked_response
        = true ∧
    ((d0.add_response_header "transfer-encoding" "").append_last_response_header_key
        "x").map (fun d2 => derived_flags d2)
      = some (derived_flags (d0.add_response_header "transfer-encoding" "")) := by
  constructor
  · rw [(derived_flags_spec.2.2.2.2.2.2.1 d0 "transfer-encoding" "chunked").1]
    decide
  · cases he : (d0.add_response_header "transfer-encoding" "").append_last_response_header_key "x" with
    | none =>
      have hs : ((d0.add_response_header "transfer-encoding"
          "").append_last_response_header_key "x").isSome = true := rfl
      rw [he] at hs
      simp at hs
    | some d2 =>
      rw [Option.map_some',
        derived_flags_spec.2.2.1 (d0.add_response_header "transfer-encoding" "")
          d2 "x" he]

/-- A key append on the response store leaves the response state
untouched. -/
theorem response_state_of_append_key {d d2 : Downstream} {s : String}
    (h : d.append_last_response_header_key s = some d2) :
    d2.response_state = d.response_state := by
  unfold Downstream.append_last_response_header_key at h
  by_cases hk : d.response_header_key_prev
  · cases hl : d.response_headers.getLast? with
    | none => simp [hk, hl] at h
    | some item =>
      simp only [hk, if_true, hl, Option.some.injEq] at h
      subst h
      rfl
  · simp [hk] at h

/-- A value append on the response store leaves the response state
untouched. -/
theorem response_state_of_append_value {d d2 : Downstream} {s : String}
    (h : d.append_last_response_header_value s = some d2) :
    d2.response_state = d.response_state := by
  unfold Downstream.append_last_response_header_value at h
  by_cases hk : d.response_header_key_prev
  · simp [hk] at h
  · cases hl : d.response_headers.getLast? with
    | none => simp [hk, hl] at h
    | some item =>
      simp only [hk, if_false, Bool.false_eq_true, ite_false, hl,
        Option.some.injEq] at h
      subst h
      rfl

/-- Installing a complete response header value leaves the response state
untouched. -/
theorem response_state_of_set_last_value {d d2 : Downstream} {s : String}
    (h : d.set_last_response_header_value s = some d2) :
    d2.response_state = d.response_state := by
  unfold Downstream.set_last_response_header_value at h
  cases hl : d.response_headers.getLast? with
  | none => simp [hl] at h
  | some item =>
    simp only [hl, Option.some.injEq] at h
    subst h
    rfl

/-- The second component of the headers-complete callback always carries
response state HEADER_COMPLETE. -/
theorem response_state_of_hdrs_completecb (status ma mi : Nat) (ka : Bool)
    (d : Downstream) :
    (htp_hdrs_completecb status ma mi ka d).2.response_state
      = DownstreamState.HEADER_COMPLETE := by
  simp only [htp_hdrs_completecb]
  split <;> rfl

/-- One parser event only preserves the response state or sets it to
HEADER_COMPLETE or MSG_COMPLETE. -/
theorem htpStep_response_state {e : HtpEvent} {d : Downstream} {rc : Int}
    {d2 : Downstream} (h : htpStep e d = some (rc, d2)) :
    d2.response_state = d.response_state ∨
      d2.response_state = DownstreamState.HEADER_COMPLETE ∨
      d2.response_state = DownstreamState.MSG_COMPLETE := by
  cases e with
  | key data =>
    simp only [htpStep, htp_hdr_keycb] at h
    by_cases hk : d.response_header_key_prev
    · rw [if_pos hk] at h
      cases ha : d.append_last_response_header_key data with
      | none => rw [ha] at h; simp at h
      | some a =>
        rw [ha] at h
        simp only [Option.map_some', Option.some.injEq] at h
        have hd2 : a = d2 := congrArg Prod.snd h
        rw [← hd2]
        exact Or.inl (response_state_of_append_key ha)
    · rw [if_neg hk] at h
      have hd2 : d.add_response_header data "" = d2 :=
        congrArg Prod.snd (Option.some.inj h)
      rw [← hd2]
      exact Or.inl rfl
  | value data =>
    simp only [htpStep, htp_hdr_valcb] at h
    by_cases hk : d.response_header_key_prev
    · rw [if_pos hk] at h
      cases ha : d.set_last_response_header_value data with
      | none => rw [ha] at h; simp at h
      | some a =>
        rw [ha] at h
        simp only [Option.map_some', Option.some.injEq] at h
        have hd2 : a = d2 := congrArg Prod.snd h
        rw [← hd2]
        exact Or.inl (response_state_of_set_last_value ha)
    · rw [if_neg hk] at h
      cases ha : d.append_last_response_header_value data with
      | none => rw [ha] at h; simp at h
      | some a =>
        rw [ha] at h
        simp only [Option.map_some', Option.some.injEq] at h
        have hd2 : a = d2 := congrArg Prod.snd h
        rw [← hd2]
        exact Or.inl (response_state_of_append_value ha)
  | hdrsComplete s ma mi ka =>
    simp only [htpStep, Option.some.injEq] at h
    have hd2 : (htp_hdrs_completecb s ma mi ka d).2 = d2 :=
      congrArg Prod.snd h
    rw [← hd2]
    exact Or.inr (Or.inl (response_state_of_hdrs_completecb s ma mi ka d))
  | body data =>
    simp only [htpStep, htp_bodycb, Option.some.injEq] at h
    have hd2 : d = d2 := congrArg Prod.snd h
    rw [← hd2]
    exact Or.inl rfl
  | msgComplete =>
    simp only [htpStep, htp_msg_completecb, Option.some.injEq] at h
    have hd2 : d.set_response_state DownstreamState.MSG_COMPLETE = d2 :=
      congrArg Prod.snd h
    rw [← hd2]
    exact Or.inr (Or.inr rfl)

/-- C9 (amended): `set_response_state` assigns its argument
unconditionally, enforcing no monotonicity; the parser callbacks
themselves only ever preserve the state or advance it to HEADER_COMPLETE
or MSG_COMPLETE, so across any sequence of parser events a response state
that has left INITIAL never returns to INITIAL. -/
theorem response_state_parser_monotonicity :
    (∀ (d : Downstream) (s : DownstreamState),
      (d.set_response_state s).response_state = s) ∧
    (∀ (e : HtpEvent) (d : Downstream) (rc : Int) (d2 : Downstream),
      htpStep e d = some (rc, d2) →
      (d2.response_state = d.response_state ∨
        d2.response_state = DownstreamState.HEADER_COMPLETE ∨
        d2.response_state = DownstreamState.MSG_COMPLETE)) ∧
    (∀ (evs : List HtpEvent) (d : Downstream),
      d.response_state ≠ DownstreamState.INITIAL →
      ∀ d2 ∈ htpRun evs d, d2.response_state ≠ DownstreamState.INITIAL) := by
  refine ⟨fun d s => rfl, fun e d rc d2 h => htpStep_response_state h, ?_⟩
  intro evs
  induction evs with
  | nil =>
    intro d hd d2 hmem
    simp [htpRun] at hmem
  | cons e rest ih =>
    intro d hd d2 hmem
    simp only [htpRun] at hmem
    cases hs : htpStep e d with
    | none => rw [hs] at hmem; simp at hmem
    | some p =>
      obtain ⟨rc, d1⟩ := p
      rw [hs] at hmem
      simp only [] at hmem
      have hd1 : d1.response_state ≠ DownstreamState.INITIAL := by
        rcases htpStep_response_state hs with h1 | h1 | h1 <;> rw [h1]
        · exact hd
        · simp
        · simp
      by_cases hab : htpAborts e rc = true
      · rw [if_pos hab] at hmem
        rw [List.mem_singleton.mp hmem]
        exact hd1
      · rw [if_neg hab] at hmem
        rcases List.mem_cons.mp hmem with h2 | h2
        · rw [h2]
          exact hd1
        · exact ih d1 hd1 d2 h2

/-- C9 witness: after a message-complete parser event on a Downstream in
HEADER_COMPLETE, the state in the trace is not INITIAL. -/
theorem response_state_parser_monotonicity_witness :
    ((d0.set_response_state DownstreamState.HEADER_COMPLETE).set_response_state
        DownstreamState.MSG_COMPLETE).response_state
      ≠ DownstreamState.INITIAL := by
  have h := response_state_parser_monotonicity.2.2 [HtpEvent.msgComplete]
    (d0.set_response_state DownstreamState.HEADER_COMPLETE) (by decide)
  refine h _ ?_
  rw [show htpRun [HtpEvent.msgComplete]
      (d0.set_response_state DownstreamState.HEADER_COMPLETE)
    = [(d0.set_response_state DownstreamState.HEADER_COMPLETE).set_response_state
        DownstreamState.MSG_COMPLETE] from rfl]
  exact List.mem_singleton.mpr rfl

/-- C9 counterexample: `set_response_state` is a plain setter, so a
Downstream that has reached MSG_COMPLETE regresses to INITIAL when the
setter is called again — the state machine itself enforces no
monotonicity. -/
theorem response_state_can_regress :
    (d0.set_response_state DownstreamState.MSG_COMPLETE).response_state
        = DownstreamState.MSG_COMPLETE ∧
    ((d0.set_response_state DownstreamState.MSG_COMPLETE).set_response_state
        DownstreamState.INITIAL).response_state = DownstreamState.INITIAL :=
  ⟨rfl, rfl⟩

end shrpx
